import Mathlib

/-!
A shallow embedding of `server.py`, a FastAPI + MongoDB backend for a
restaurant queue-display kiosk, together with proofs about its endpoint
handlers.

Modelling conventions
  * A MongoDB document is a record whose fields are `Option`-valued: `none`
    means the key is absent from the stored document, `some v` that the key is
    present with value `v`.  For pydantic fields typed `Optional[str]` the
    stored value is itself an `Option String` (a present key may hold null), so
    those document fields are `Option (Option String)`.
  * Each singleton collection (`app_config`, `slide_settings`,
    `current_number`, `bluetooth_remote`, `voice_settings`) only ever holds the
    one document with its fixed id, so it is modelled as `Option Doc` before a
    handler runs.  Every handler leaves exactly one document in the collection,
    so handlers return `Response × Doc`.
  * `update_one(filter, {"$set": fields}, upsert=True)` on a singleton is
    modelled field by field: a supplied field (`some v` in the update, i.e. a
    non-`None` value kept by the `{k: v for ... if v is not None}`
    comprehension) overwrites, an unsupplied field keeps its prior value; with
    no prior document the upsert inserts the filter key plus the supplied
    fields only.  `Option.or u old` is exactly that per-field merge.
    MongoDB rejects an empty `$set` document with a WriteError, so the three
    PUT handlers that stamp no timestamp (`update_slide_settings`,
    `update_bluetooth_settings`, `update_voice_settings`) fail with a server
    error when the request body supplies no field at all; they return
    `Except`, erring exactly on the all-`None` body.  `update_config` and
    `update_number` always put `updated_at` (and `number`) into the `$set`,
    so their `$set` is never empty and they cannot fail.
  * `pydantic_model(**doc)` is a `parse` function filling each absent key with
    the model's declared default; `datetime.utcnow()` defaults are filled with
    the abstract current time passed to the handler.
  * `datetime.utcnow()` is an abstract tick `Time := Nat` supplied to each
    handler that stamps a timestamp.
  * The slide collection is a `List SlideImage`; `insert_one` appends,
    `delete_one`/`update_one` act on the first document matching the id filter.
  * Python exceptions that escape a handler (KeyError, pydantic
    ValidationError) and `HTTPException` are modelled with `Except`.
-/

namespace Server

/-- Abstract timestamp standing for a `datetime.utcnow()` value. -/
abbrev Time := Nat

/-! ### AppConfig -/

/-- Default for `AppConfig.rss_feed_url`. -/
def defaultRssUrl : String := "https://news.google.com/rss?hl=it&gl=IT&ceid=IT:it"

/-- The stored `app_config` document (keys optional, see conventions). -/
structure AppConfigDoc where
  id : String
  restaurant_name : Option String
  city : Option String
  logo_base64 : Option (Option String)
  theme_primary_color : Option String
  theme_secondary_color : Option String
  theme_text_color : Option String
  rss_feed_url : Option String
  weather_api_key : Option (Option String)
  created_at : Option Time
  updated_at : Option Time
deriving Repr, DecidableEq

/-- The `AppConfig` pydantic model (all defaults filled): the response shape. -/
structure AppConfig where
  id : String
  restaurant_name : String
  city : String
  logo_base64 : Option String
  theme_primary_color : String
  theme_secondary_color : String
  theme_text_color : String
  rss_feed_url : String
  weather_api_key : Option String
  created_at : Time
  updated_at : Time
deriving Repr, DecidableEq

/-- `AppConfig()` constructed at time `now` (both timestamp factories fire). -/
def AppConfig.default (now : Time) : AppConfig :=
  ⟨"main_config", "Number ONE", "ROMA", none, "#FF0000", "#2C3E50", "#FFFFFF",
    defaultRssUrl, none, now, now⟩

/-- `.dict()`: the full document written by `insert_one`; every key present. -/
def AppConfig.dict (c : AppConfig) : AppConfigDoc :=
  ⟨c.id, some c.restaurant_name, some c.city, some c.logo_base64,
    some c.theme_primary_color, some c.theme_secondary_color,
    some c.theme_text_color, some c.rss_feed_url, some c.weather_api_key,
    some c.created_at, some c.updated_at⟩

/-- `AppConfig(**doc)`: absent keys fall back to the declared defaults; the
timestamp factories would fire at parse time `now`. -/
def AppConfigDoc.parse (now : Time) (d : AppConfigDoc) : AppConfig :=
  ⟨d.id, d.restaurant_name.getD "Number ONE", d.city.getD "ROMA",
    d.logo_base64.getD none, d.theme_primary_color.getD "#FF0000",
    d.theme_secondary_color.getD "#2C3E50", d.theme_text_color.getD "#FFFFFF",
    d.rss_feed_url.getD defaultRssUrl, d.weather_api_key.getD none,
    d.created_at.getD now, d.updated_at.getD now⟩

/-- Request body of `PUT /api/config`; `none` = field absent or null, dropped
by the `if v is not None` comprehension. -/
structure AppConfigUpdate where
  restaurant_name : Option String
  city : Option String
  logo_base64 : Option String
  theme_primary_color : Option String
  theme_secondary_color : Option String
  theme_text_color : Option String
  rss_feed_url : Option String
  weather_api_key : Option String
deriving Repr, DecidableEq

/-- `GET /api/config`: lazily create the singleton with defaults. -/
def get_config (now : Time) (st : Option AppConfigDoc) : AppConfig × AppConfigDoc :=
  match st with
  | none => (AppConfig.default now, (AppConfig.default now).dict)
  | some d => (d.parse now, d)

/-- `PUT /api/config`: `$set` of the supplied fields plus `updated_at`, with
upsert, then re-read and parse. -/
def update_config (now : Time) (u : AppConfigUpdate) (st : Option AppConfigDoc) :
    AppConfig × AppConfigDoc :=
  let d : AppConfigDoc :=
    match st with
    | some d0 =>
        { d0 with
          restaurant_name := u.restaurant_name.or d0.restaurant_name
          city := u.city.or d0.city
          logo_base64 := (u.logo_base64.map some).or d0.logo_base64
          theme_primary_color := u.theme_primary_color.or d0.theme_primary_color
          theme_secondary_color := u.theme_secondary_color.or d0.theme_secondary_color
          theme_text_color := u.theme_text_color.or d0.theme_text_color
          rss_feed_url := u.rss_feed_url.or d0.rss_feed_url
          weather_api_key := (u.weather_api_key.map some).or d0.weather_api_key
          updated_at := some now }
    | none =>
        ⟨"main_config", u.restaurant_name, u.city, u.logo_base64.map some,
          u.theme_primary_color, u.theme_secondary_color, u.theme_text_color,
          u.rss_feed_url, u.weather_api_key.map some, none, some now⟩
  (d.parse now, d)

/-! ### SlideSettings -/

/-- The stored `slide_settings` document. -/
structure SlideSettingsDoc where
  id : String
  interval_seconds : Option Int
  transition_effect : Option String
  auto_play : Option Bool
deriving Repr, DecidableEq

/-- The `SlideSettings` pydantic model: the response shape. -/
structure SlideSettings where
  id : String
  interval_seconds : Int
  transition_effect : String
  auto_play : Bool
deriving Repr, DecidableEq

/-- `SlideSettings()`. -/
def SlideSettings.default : SlideSettings := ⟨"slide_settings", 10, "fade", true⟩

/-- `.dict()` of a full `SlideSettings` model. -/
def SlideSettings.dict (s : SlideSettings) : SlideSettingsDoc :=
  ⟨s.id, some s.interval_seconds, some s.transition_effect, some s.auto_play⟩

/-- `SlideSettings(**doc)`. -/
def SlideSettingsDoc.parse (d : SlideSettingsDoc) : SlideSettings :=
  ⟨d.id, d.interval_seconds.getD 10, d.transition_effect.getD "fade",
    d.auto_play.getD true⟩

/-- Request body of `PUT /api/slides/settings`. -/
structure SlideSettingsUpdate where
  interval_seconds : Option Int
  transition_effect : Option String
  auto_play : Option Bool
deriving Repr, DecidableEq

/-- `GET /api/slides/settings`. -/
def get_slide_settings (st : Option SlideSettingsDoc) : SlideSettings × SlideSettingsDoc :=
  match st with
  | none => (SlideSettings.default, SlideSettings.default.dict)
  | some d => (d.parse, d)

/-- `PUT /api/slides/settings` (no timestamp on this entity).  A body
supplying no field leaves `update_data` empty, and MongoDB rejects the empty
`$set` with a WriteError that escapes the handler as a server error. -/
def update_slide_settings (u : SlideSettingsUpdate) (st : Option SlideSettingsDoc) :
    Except String (SlideSettings × SlideSettingsDoc) :=
  if u = ⟨none, none, none⟩ then
    Except.error "WriteError: $set is empty"
  else
    let d : SlideSettingsDoc :=
      match st with
      | some d0 =>
          { d0 with
            interval_seconds := u.interval_seconds.or d0.interval_seconds
            transition_effect := u.transition_effect.or d0.transition_effect
            auto_play := u.auto_play.or d0.auto_play }
      | none => ⟨"slide_settings", u.interval_seconds, u.transition_effect, u.auto_play⟩
    Except.ok (d.parse, d)

/-! ### CurrentNumber -/

/-- The stored `current_number` document. -/
structure CurrentNumberDoc where
  id : String
  number : Option Int
  updated_at : Option Time
deriving Repr, DecidableEq

/-- The `CurrentNumber` pydantic model: the response shape. -/
structure CurrentNumber where
  id : String
  number : Int
  updated_at : Time
deriving Repr, DecidableEq

/-- `CurrentNumber()` constructed at time `now`. -/
def CurrentNumber.default (now : Time) : CurrentNumber := ⟨"current_number", 1, now⟩

/-- `.dict()` of a full `CurrentNumber` model. -/
def CurrentNumber.dict (c : CurrentNumber) : CurrentNumberDoc :=
  ⟨c.id, some c.number, some c.updated_at⟩

/-- `CurrentNumber(**doc)`; `doc.get("number", 1)` semantics for the parse. -/
def CurrentNumberDoc.parse (now : Time) (d : CurrentNumberDoc) : CurrentNumber :=
  ⟨d.id, d.number.getD 1, d.updated_at.getD now⟩

/-- `GET /api/number`. -/
def get_current_number (now : Time) (st : Option CurrentNumberDoc) :
    CurrentNumber × CurrentNumberDoc :=
  match st with
  | none => (CurrentNumber.default now, (CurrentNumber.default now).dict)
  | some d => (d.parse now, d)

/-- `PUT /api/number`: unconditional `$set` of `number` and `updated_at`,
upserting; no lower bound is applied to `n`. -/
def update_number (now : Time) (n : Int) (st : Option CurrentNumberDoc) :
    CurrentNumber × CurrentNumberDoc :=
  let d : CurrentNumberDoc :=
    match st with
    | some d0 => { d0 with number := some n, updated_at := some now }
    | none => ⟨"current_number", some n, some now⟩
  (d.parse now, d)

/-- `POST /api/number/increment`: read (inserting the default document when
absent), add 1 with no ceiling, `$set`, re-read. -/
def increment_number (now : Time) (st : Option CurrentNumberDoc) :
    CurrentNumber × CurrentNumberDoc :=
  let current : CurrentNumberDoc :=
    match st with
    | some d0 => d0
    | none => (CurrentNumber.default now).dict
  let new_number : Int := current.number.getD 1 + 1
  let d : CurrentNumberDoc := { current with number := some new_number, updated_at := some now }
  (d.parse now, d)

/-- `POST /api/number/decrement`: read (inserting the default document when
absent), subtract 1 clamped at the floor 1, `$set`, re-read. -/
def decrement_number (now : Time) (st : Option CurrentNumberDoc) :
    CurrentNumber × CurrentNumberDoc :=
  let current : CurrentNumberDoc :=
    match st with
    | some d0 => d0
    | none => (CurrentNumber.default now).dict
  let new_number : Int := max 1 (current.number.getD 1 - 1)
  let d : CurrentNumberDoc := { current with number := some new_number, updated_at := some now }
  (d.parse now, d)

/-- `POST /api/number/reset`: unconditional `$set` of `number = 1`, upserting. -/
def reset_number (now : Time) (st : Option CurrentNumberDoc) :
    CurrentNumber × CurrentNumberDoc :=
  let d : CurrentNumberDoc :=
    match st with
    | some d0 => { d0 with number := some 1, updated_at := some now }
    | none => ⟨"current_number", some 1, some now⟩
  (d.parse now, d)

/-! ### Slide images -/

/-- A stored `slide_images` document.  Documents are only ever created by
`POST /api/slides`, which inserts every key, so all fields are present. -/
structure SlideImage where
  id : String
  image_base64 : String
  order : Int
  created_at : Time
deriving Repr, DecidableEq

/-- `GET /api/slides`: `find().sort("order", 1).to_list(100)` — ascending by
`order`, capped at 100 documents — each re-parsed as `SlideImage` (identity on
full documents). -/
def get_slides (l : List SlideImage) : List SlideImage :=
  (l.mergeSort (fun a b => a.order ≤ b.order)).take 100

/-- `POST /api/slides`: `SlideImage(**slide.dict())` then `insert_one`.
`newId` is the generated `uuid4` string and `now` the `created_at` factory
value.  `ord` is the parsed `SlideImageCreate.order` (`Optional[int] = 0`):
`none` only when the client sent an explicit null, in which case re-validating
as `SlideImage` (whose `order : int`) raises a pydantic ValidationError. -/
def create_slide (newId : String) (now : Time) (image_base64 : String)
    (ord : Option Int) (l : List SlideImage) :
    Except String (SlideImage × List SlideImage) :=
  match ord with
  | none => Except.error "validation error: none is not an allowed value for order"
  | some o =>
      let s : SlideImage := ⟨newId, image_base64, o, now⟩
      Except.ok (s, l ++ [s])

/-- `DELETE /api/slides/{slide_id}`: `delete_one({"id": slide_id})` removes the
first matching document; a deleted count of 0 raises `HTTPException(404)`. -/
def delete_slide (slide_id : String) (l : List SlideImage) :
    Except Nat String × List SlideImage :=
  let l2 := l.eraseP (fun s => s.id == slide_id)
  if l.any (fun s => s.id == slide_id) then
    (Except.ok "Slide deleted successfully", l2)
  else
    (Except.error 404, l2)

/-- One element of the `PUT /api/slides/reorder` body, a JSON dict that may
lack the `id` or `order` key (`none` = key absent). -/
structure SlideOrderItem where
  id : Option String
  order : Option Int
deriving Repr, DecidableEq

/-- `update_one({"id": i}, {"$set": {"order": v}})` without upsert: sets the
`order` of the first document matching the id, a silent no-op when none does. -/
def setOrderFirst (i : String) (v : Int) : List SlideImage → List SlideImage
  | [] => []
  | s :: rest =>
      if s.id = i then { s with order := v } :: rest
      else s :: setOrderFirst i v rest

/-- `PUT /api/slides/reorder`: sequentially applies each item; `item["id"]`
(resp. `item["order"]`) raises a KeyError when the key is absent, aborting the
loop with the earlier updates already persisted. -/
def reorder_slides : List SlideOrderItem → List SlideImage →
    Except String String × List SlideImage
  | [], l => (Except.ok "Slides reordered successfully", l)
  | item :: rest, l =>
      match item.id with
      | none => (Except.error "KeyError: id", l)
      | some i =>
          match item.order with
          | none => (Except.error "KeyError: order", l)
          | some v => reorder_slides rest (setOrderFirst i v l)

/-! ### BluetoothRemote -/

/-- The stored `bluetooth_remote` document. -/
structure BluetoothRemoteDoc where
  id : String
  device_name : Option (Option String)
  device_id : Option (Option String)
  button_a_action : Option String
  button_b_action : Option String
  button_c_action : Option String
  button_d_action : Option String
  is_paired : Option Bool
deriving Repr, DecidableEq

/-- The `BluetoothRemote` pydantic model: the response shape. -/
structure BluetoothRemote where
  id : String
  device_name : Option String
  device_id : Option String
  button_a_action : String
  button_b_action : String
  button_c_action : String
  button_d_action : String
  is_paired : Bool
deriving Repr, DecidableEq

/-- `BluetoothRemote()`. -/
def BluetoothRemote.default : BluetoothRemote :=
  ⟨"bluetooth_remote", none, none, "increment", "decrement", "reset", "none", false⟩

/-- `.dict()` of a full `BluetoothRemote` model. -/
def BluetoothRemote.dict (b : BluetoothRemote) : BluetoothRemoteDoc :=
  ⟨b.id, some b.device_name, some b.device_id, some b.button_a_action,
    some b.button_b_action, some b.button_c_action, some b.button_d_action,
    some b.is_paired⟩

/-- `BluetoothRemote(**doc)`. -/
def BluetoothRemoteDoc.parse (d : BluetoothRemoteDoc) : BluetoothRemote :=
  ⟨d.id, d.device_name.getD none, d.device_id.getD none,
    d.button_a_action.getD "increment", d.button_b_action.getD "decrement",
    d.button_c_action.getD "reset", d.button_d_action.getD "none",
    d.is_paired.getD false⟩

/-- Request body of `PUT /api/bluetooth`. -/
structure BluetoothRemoteUpdate where
  device_name : Option String
  device_id : Option String
  button_a_action : Option String
  button_b_action : Option String
  button_c_action : Option String
  button_d_action : Option String
  is_paired : Option Bool
deriving Repr, DecidableEq

/-- `GET /api/bluetooth`. -/
def get_bluetooth_settings (st : Option BluetoothRemoteDoc) :
    BluetoothRemote × BluetoothRemoteDoc :=
  match st with
  | none => (BluetoothRemote.default, BluetoothRemote.default.dict)
  | some d => (d.parse, d)

/-- `PUT /api/bluetooth` (no timestamp on this entity).  As for
`update_slide_settings`, a body supplying no field makes MongoDB reject the
empty `$set` with a WriteError. -/
def update_bluetooth_settings (u : BluetoothRemoteUpdate) (st : Option BluetoothRemoteDoc) :
    Except String (BluetoothRemote × BluetoothRemoteDoc) :=
  if u = ⟨none, none, none, none, none, none, none⟩ then
    Except.error "WriteError: $set is empty"
  else
    let d : BluetoothRemoteDoc :=
      match st with
      | some d0 =>
          { d0 with
            device_name := (u.device_name.map some).or d0.device_name
            device_id := (u.device_id.map some).or d0.device_id
            button_a_action := u.button_a_action.or d0.button_a_action
            button_b_action := u.button_b_action.or d0.button_b_action
            button_c_action := u.button_c_action.or d0.button_c_action
            button_d_action := u.button_d_action.or d0.button_d_action
            is_paired := u.is_paired.or d0.is_paired }
      | none =>
          ⟨"bluetooth_remote", u.device_name.map some, u.device_id.map some,
            u.button_a_action, u.button_b_action, u.button_c_action,
            u.button_d_action, u.is_paired⟩
    Except.ok (d.parse, d)

/-! ### VoiceSettings -/

/-- The stored `voice_settings` document. -/
structure VoiceSettingsDoc where
  id : String
  enabled : Option Bool
  voice_type : Option String
  pitch : Option Rat
  rate : Option Rat
  phrase_template : Option String
  language : Option String
deriving Repr, DecidableEq

/-- The `VoiceSettings` pydantic model: the response shape. -/
structure VoiceSettings where
  id : String
  enabled : Bool
  voice_type : String
  pitch : Rat
  rate : Rat
  phrase_template : String
  language : String
deriving Repr, DecidableEq

/-- `VoiceSettings()`. -/
def VoiceSettings.default : VoiceSettings :=
  ⟨"voice_settings", true, "female", 1, 1, "Numero {number}", "it-IT"⟩

/-- `.dict()` of a full `VoiceSettings` model. -/
def VoiceSettings.dict (v : VoiceSettings) : VoiceSettingsDoc :=
  ⟨v.id, some v.enabled, some v.voice_type, some v.pitch, some v.rate,
    some v.phrase_template, some v.language⟩

/-- `VoiceSettings(**doc)`. -/
def VoiceSettingsDoc.parse (d : VoiceSettingsDoc) : VoiceSettings :=
  ⟨d.id, d.enabled.getD true, d.voice_type.getD "female", d.pitch.getD 1,
    d.rate.getD 1, d.phrase_template.getD "Numero {number}",
    d.language.getD "it-IT"⟩

/-- Request body of `PUT /api/voice`. -/
structure VoiceSettingsUpdate where
  enabled : Option Bool
  voice_type : Option String
  pitch : Option Rat
  rate : Option Rat
  phrase_template : Option String
  language : Option String
deriving Repr, DecidableEq

/-- `GET /api/voice`. -/
def get_voice_settings (st : Option VoiceSettingsDoc) :
    VoiceSettings × VoiceSettingsDoc :=
  match st with
  | none => (VoiceSettings.default, VoiceSettings.default.dict)
  | some d => (d.parse, d)

/-- `PUT /api/voice` (no timestamp on this entity).  As for
`update_slide_settings`, a body supplying no field makes MongoDB reject the
empty `$set` with a WriteError. -/
def update_voice_settings (u : VoiceSettingsUpdate) (st : Option VoiceSettingsDoc) :
    Except String (VoiceSettings × VoiceSettingsDoc) :=
  if u = ⟨none, none, none, none, none, none⟩ then
    Except.error "WriteError: $set is empty"
  else
    let d : VoiceSettingsDoc :=
      match st with
      | some d0 =>
          { d0 with
            enabled := u.enabled.or d0.enabled
            voice_type := u.voice_type.or d0.voice_type
            pitch := u.pitch.or d0.pitch
            rate := u.rate.or d0.rate
            phrase_template := u.phrase_template.or d0.phrase_template
            language := u.language.or d0.language }
      | none =>
          ⟨"voice_settings", u.enabled, u.voice_type, u.pitch, u.rate,
            u.phrase_template, u.language⟩
    Except.ok (d.parse, d)

/-! ### News feed -/

/-- One entry of a parsed RSS feed: `entry.title`, `entry.link`,
`entry.get("published", "")` (`none` = attribute absent). -/
structure FeedEntry where
  title : String
  link : String
  published : Option String
deriving Repr, DecidableEq

/-- One item of the `GET /api/news` response body. -/
structure NewsItem where
  title : String
  link : String
  published : String
deriving Repr, DecidableEq

/-- The `GET /api/news` response body. -/
structure NewsResponse where
  news : List NewsItem
  error : Option String
deriving Repr, DecidableEq

/-- The feed URL chosen by the handler: `config.get("rss_feed_url", default)`
when the `app_config` document exists, the hardcoded default otherwise. -/
def rssUrlOf : Option AppConfigDoc → String
  | some c => c.rss_feed_url.getD defaultRssUrl
  | none => defaultRssUrl

/-- `GET /api/news`.  The outbound fetch + parse of the feed is abstracted as
`fetch`, an oracle from the URL to either the entry list or the message of the
exception it raises.  The whole handler body is a `try` whose `except` returns
`{"news": [], "error": str(e)}`; no `HTTPException` is ever raised, which is
why the `Except.error` (HTTP status) branch of the result is never produced. -/
def get_news_feed (cfg : Option AppConfigDoc)
    (fetch : String → Except String (List FeedEntry)) : Except Nat NewsResponse :=
  match fetch (rssUrlOf cfg) with
  | Except.error e => Except.ok ⟨[], some e⟩
  | Except.ok entries =>
      Except.ok ⟨(entries.take 20).map (fun en => ⟨en.title, en.link, en.published.getD ""⟩), none⟩

/-! ### Helper predicates and sample data -/

/-- Partial-merge behaviour of one stored field under `$set`: a supplied
update value overwrites, an unsupplied one leaves the prior stored value. -/
def FieldMerged (u : Option α) (old new : Option α) : Prop :=
  (u = none → new = old) ∧ ∀ v, u = some v → new = some v

/-- As `FieldMerged`, for a field whose pydantic type is `Optional[...]`, so
the stored value is itself an `Option`. -/
def OptFieldMerged (u : Option α) (old new : Option (Option α)) : Prop :=
  (u = none → new = old) ∧ ∀ v, u = some v → new = some (some v)

/-- The `PUT /api/config` body with no field supplied. -/
def emptyConfigUpdate : AppConfigUpdate :=
  ⟨none, none, none, none, none, none, none, none⟩

/-- A `PUT /api/config` body supplying only `city`. -/
def cityOnlyUpdate : AppConfigUpdate :=
  ⟨none, some "MILANO", none, none, none, none, none, none⟩

/-- The merge a `$set` computes is exactly the per-field partial merge. -/
theorem or_fieldMerged (u old : Option α) : FieldMerged u old (u.or old) :=
  ⟨fun h => by subst h; rfl, fun v h => by subst h; rfl⟩

/-- As `or_fieldMerged`, for `Optional[...]`-typed fields. -/
theorem mapOr_optFieldMerged (u : Option α) (old : Option (Option α)) :
    OptFieldMerged u old ((u.map some).or old) :=
  ⟨fun h => by subst h; rfl, fun v h => by subst h; rfl⟩

/-! ### C1 – C3: the CurrentNumber state machine -/

/-- C1: for every stored value N, `POST /number/decrement` persists and
returns `max 1 (N - 1)`; in particular from 1 it stays at 1, and the result of
a decrement is never below 1 whatever the prior state. -/
theorem decrement_number_floor (now : Time) (d : CurrentNumberDoc) (N : Int)
    (h : d.number = some N) :
    (decrement_number now (some d)).1.number = max 1 (N - 1) ∧
    (decrement_number now (some d)).2 =
      { d with number := some (max 1 (N - 1)), updated_at := some now } ∧
    ∀ st : Option CurrentNumberDoc, 1 ≤ (decrement_number now st).1.number := by
  refine ⟨?_, ?_, ?_⟩
  · simp [decrement_number, h, CurrentNumberDoc.parse]
  · simp [decrement_number, h]
  · intro st
    cases st with
    | none => simp [decrement_number, CurrentNumberDoc.parse]
    | some d0 => simp [decrement_number, CurrentNumberDoc.parse]

/-- Witness for C1 at the stored value 1 and time 5. -/
theorem decrement_number_floor_witness :
    (decrement_number 5 (some ⟨"current_number", some 1, some 0⟩)).1.number = 1 :=
  (decrement_number_floor 5 ⟨"current_number", some 1, some 0⟩ 1 rfl).1.trans (by decide)

/-- C2: from any stored N ≥ 1, increment followed by decrement returns and
persists exactly N again. -/
theorem increment_then_decrement_id (t1 t2 : Time) (d : CurrentNumberDoc) (N : Int)
    (hN : 1 ≤ N) (h : d.number = some N) :
    (decrement_number t2 (some (increment_number t1 (some d)).2)).1.number = N ∧
    (decrement_number t2 (some (increment_number t1 (some d)).2)).2.number = some N := by
  have hmax : max 1 (N + 1 - 1) = N := by omega
  constructor <;>
    simp [increment_number, decrement_number, h, CurrentNumberDoc.parse, hmax, hN]

/-- Witness for C2 at N = 4. -/
theorem increment_then_decrement_id_witness :
    (decrement_number 2 (some (increment_number 1
      (some ⟨"current_number", some 4, some 0⟩)).2)).1.number = 4 :=
  (increment_then_decrement_id 1 2 ⟨"current_number", some 4, some 0⟩ 4
    (by decide) rfl).1

/-- C3: `POST /number/reset` persists and returns 1 from every prior state of
the collection (document absent included), while `PUT /number` persists the
given integer unconditionally, with no lower bound applied. -/
theorem reset_number_always_one (now : Time) (st : Option CurrentNumberDoc) (n : Int) :
    (reset_number now st).1.number = 1 ∧
    (reset_number now st).2.number = some 1 ∧
    (update_number now n st).1.number = n ∧
    (update_number now n st).2.number = some n := by
  cases st with
  | none => simp [reset_number, update_number, CurrentNumberDoc.parse]
  | some d0 =>
      refine ⟨?_, ?_, ?_, ?_⟩ <;>
        simp [reset_number, update_number, CurrentNumberDoc.parse]

/-! ### C4: lazy creation of the five singletons -/

/-- C4: on an empty store each singleton GET returns the documented defaults
and stores exactly one full default document; a second GET (at any later time)
returns the same values and leaves the stored document unchanged. -/
theorem singleton_get_lazy_create (t1 t2 : Time) :
    get_config t1 none =
      (⟨"main_config", "Number ONE", "ROMA", none, "#FF0000", "#2C3E50",
          "#FFFFFF", defaultRssUrl, none, t1, t1⟩,
        ⟨"main_config", some "Number ONE", some "ROMA", some none,
          some "#FF0000", some "#2C3E50", some "#FFFFFF", some defaultRssUrl,
          some none, some t1, some t1⟩) ∧
    get_config t2 (some (get_config t1 none).2) = get_config t1 none ∧
    get_slide_settings none =
      (⟨"slide_settings", 10, "fade", true⟩,
        ⟨"slide_settings", some 10, some "fade", some true⟩) ∧
    get_slide_settings (some (get_slide_settings none).2) = get_slide_settings none ∧
    get_current_number t1 none =
      (⟨"current_number", 1, t1⟩, ⟨"current_number", some 1, some t1⟩) ∧
    get_current_number t2 (some (get_current_number t1 none).2) =
      get_current_number t1 none ∧
    get_bluetooth_settings none =
      (⟨"bluetooth_remote", none, none, "increment", "decrement", "reset",
          "none", false⟩,
        ⟨"bluetooth_remote", some none, some none, some "increment",
          some "decrement", some "reset", some "none", some false⟩) ∧
    get_bluetooth_settings (some (get_bluetooth_settings none).2) =
      get_bluetooth_settings none ∧
    get_voice_settings none =
      (⟨"voice_settings", true, "female", 1, 1, "Numero {number}", "it-IT"⟩,
        ⟨"voice_settings", some true, some "female", some 1, some 1,
          some "Numero {number}", some "it-IT"⟩) ∧
    get_voice_settings (some (get_voice_settings none).2) = get_voice_settings none :=
  ⟨rfl, rfl, rfl, rfl, rfl, rfl, rfl, rfl, rfl, rfl⟩

/-! ### C5: partial-merge semantics of the singleton PUT endpoints -/

/-- C5 counterexample: `PUT /config` with a body supplying no field at all
still rewrites the stored `updated_at` (from 0 to the request time 1), so a
PUT does not leave every unsupplied field of the stored document at its prior
value. -/
theorem update_config_rewrites_unsupplied_updated_at :
    (update_config 1 emptyConfigUpdate (some ((AppConfig.default 0).dict))).2.updated_at
      = some 1 ∧
    ((AppConfig.default 0).dict).updated_at = some 0 ∧
    (update_config 1 emptyConfigUpdate (some ((AppConfig.default 0).dict))).2
      ≠ (AppConfig.default 0).dict := by
  refine ⟨rfl, rfl, ?_⟩
  intro h
  exact absurd (congrArg AppConfigDoc.updated_at h) (by decide)

/-- C5 amended: on an existing stored document, a singleton PUT supplying at
least one field succeeds, changes exactly the supplied fields and keeps every
other field at its prior stored value — except that the entities carrying an
`updated_at` timestamp (AppConfig via `PUT /config`, CurrentNumber via
`PUT /number`) always refresh `updated_at` to the request time, supplied or
not.  A PUT supplying no field at all to one of the three timestamp-less
singletons fails with the store's WriteError on the empty `$set`; on
`PUT /config` (and `PUT /number`, whose body cannot be empty) it still
succeeds, since their `$set` always carries `updated_at`. -/
theorem put_merges_exactly_supplied_fields (now : Time)
    (cu : AppConfigUpdate) (cd : AppConfigDoc)
    (su : SlideSettingsUpdate) (sd : SlideSettingsDoc)
    (bu : BluetoothRemoteUpdate) (bd : BluetoothRemoteDoc)
    (vu : VoiceSettingsUpdate) (vd : VoiceSettingsDoc)
    (n : Int) (nd : CurrentNumberDoc) :
    (FieldMerged cu.restaurant_name cd.restaurant_name
        (update_config now cu (some cd)).2.restaurant_name ∧
      FieldMerged cu.city cd.city (update_config now cu (some cd)).2.city ∧
      OptFieldMerged cu.logo_base64 cd.logo_base64
        (update_config now cu (some cd)).2.logo_base64 ∧
      FieldMerged cu.theme_primary_color cd.theme_primary_color
        (update_config now cu (some cd)).2.theme_primary_color ∧
      FieldMerged cu.theme_secondary_color cd.theme_secondary_color
        (update_config now cu (some cd)).2.theme_secondary_color ∧
      FieldMerged cu.theme_text_color cd.theme_text_color
        (update_config now cu (some cd)).2.theme_text_color ∧
      FieldMerged cu.rss_feed_url cd.rss_feed_url
        (update_config now cu (some cd)).2.rss_feed_url ∧
      OptFieldMerged cu.weather_api_key cd.weather_api_key
        (update_config now cu (some cd)).2.weather_api_key ∧
      (update_config now cu (some cd)).2.id = cd.id ∧
      (update_config now cu (some cd)).2.created_at = cd.created_at ∧
      (update_config now cu (some cd)).2.updated_at = some now) ∧
    ((su ≠ ⟨none, none, none⟩ →
        ∃ r d2, update_slide_settings su (some sd) = Except.ok (r, d2) ∧
          FieldMerged su.interval_seconds sd.interval_seconds d2.interval_seconds ∧
          FieldMerged su.transition_effect sd.transition_effect d2.transition_effect ∧
          FieldMerged su.auto_play sd.auto_play d2.auto_play ∧
          d2.id = sd.id) ∧
      (su = ⟨none, none, none⟩ →
        update_slide_settings su (some sd) =
          Except.error "WriteError: $set is empty")) ∧
    ((bu ≠ ⟨none, none, none, none, none, none, none⟩ →
        ∃ r d2, update_bluetooth_settings bu (some bd) = Except.ok (r, d2) ∧
          OptFieldMerged bu.device_name bd.device_name d2.device_name ∧
          OptFieldMerged bu.device_id bd.device_id d2.device_id ∧
          FieldMerged bu.button_a_action bd.button_a_action d2.button_a_action ∧
          FieldMerged bu.button_b_action bd.button_b_action d2.button_b_action ∧
          FieldMerged bu.button_c_action bd.button_c_action d2.button_c_action ∧
          FieldMerged bu.button_d_action bd.button_d_action d2.button_d_action ∧
          FieldMerged bu.is_paired bd.is_paired d2.is_paired ∧
          d2.id = bd.id) ∧
      (bu = ⟨none, none, none, none, none, none, none⟩ →
        update_bluetooth_settings bu (some bd) =
          Except.error "WriteError: $set is empty")) ∧
    ((vu ≠ ⟨none, none, none, none, none, none⟩ →
        ∃ r d2, update_voice_settings vu (some vd) = Except.ok (r, d2) ∧
          FieldMerged vu.enabled vd.enabled d2.enabled ∧
          FieldMerged vu.voice_type vd.voice_type d2.voice_type ∧
          FieldMerged vu.pitch vd.pitch d2.pitch ∧
          FieldMerged vu.rate vd.rate d2.rate ∧
          FieldMerged vu.phrase_template vd.phrase_template d2.phrase_template ∧
          FieldMerged vu.language vd.language d2.language ∧
          d2.id = vd.id) ∧
      (vu = ⟨none, none, none, none, none, none⟩ →
        update_voice_settings vu (some vd) =
          Except.error "WriteError: $set is empty")) ∧
    ((update_number now n (some nd)).2.number = some n ∧
      (update_number now n (some nd)).2.id = nd.id ∧
      (update_number now n (some nd)).2.updated_at = some now) := by
  refine ⟨⟨or_fieldMerged _ _, or_fieldMerged _ _, mapOr_optFieldMerged _ _,
      or_fieldMerged _ _, or_fieldMerged _ _, or_fieldMerged _ _,
      or_fieldMerged _ _, mapOr_optFieldMerged _ _, rfl, rfl, rfl⟩,
    ⟨?_, ?_⟩, ⟨?_, ?_⟩, ⟨?_, ?_⟩, rfl, rfl, rfl⟩
  · intro h
    refine ⟨SlideSettingsDoc.parse ⟨sd.id, su.interval_seconds.or sd.interval_seconds,
        su.transition_effect.or sd.transition_effect, su.auto_play.or sd.auto_play⟩,
      ⟨sd.id, su.interval_seconds.or sd.interval_seconds,
        su.transition_effect.or sd.transition_effect, su.auto_play.or sd.auto_play⟩,
      ?_, or_fieldMerged _ _, or_fieldMerged _ _, or_fieldMerged _ _, rfl⟩
    unfold update_slide_settings
    rw [if_neg h]
  · intro h
    subst h
    rfl
  · intro h
    refine ⟨BluetoothRemoteDoc.parse ⟨bd.id, (bu.device_name.map some).or bd.device_name,
        (bu.device_id.map some).or bd.device_id,
        bu.button_a_action.or bd.button_a_action,
        bu.button_b_action.or bd.button_b_action,
        bu.button_c_action.or bd.button_c_action,
        bu.button_d_action.or bd.button_d_action, bu.is_paired.or bd.is_paired⟩,
      ⟨bd.id, (bu.device_name.map some).or bd.device_name,
        (bu.device_id.map some).or bd.device_id,
        bu.button_a_action.or bd.button_a_action,
        bu.button_b_action.or bd.button_b_action,
        bu.button_c_action.or bd.button_c_action,
        bu.button_d_action.or bd.button_d_action, bu.is_paired.or bd.is_paired⟩,
      ?_, mapOr_optFieldMerged _ _, mapOr_optFieldMerged _ _, or_fieldMerged _ _,
      or_fieldMerged _ _, or_fieldMerged _ _, or_fieldMerged _ _,
      or_fieldMerged _ _, rfl⟩
    unfold update_bluetooth_settings
    rw [if_neg h]
  · intro h
    subst h
    rfl
  · intro h
    refine ⟨VoiceSettingsDoc.parse ⟨vd.id, vu.enabled.or vd.enabled,
        vu.voice_type.or vd.voice_type, vu.pitch.or vd.pitch, vu.rate.or vd.rate,
        vu.phrase_template.or vd.phrase_template, vu.language.or vd.language⟩,
      ⟨vd.id, vu.enabled.or vd.enabled, vu.voice_type.or vd.voice_type,
        vu.pitch.or vd.pitch, vu.rate.or vd.rate,
        vu.phrase_template.or vd.phrase_template, vu.language.or vd.language⟩,
      ?_, or_fieldMerged _ _, or_fieldMerged _ _, or_fieldMerged _ _,
      or_fieldMerged _ _, or_fieldMerged _ _, or_fieldMerged _ _, rfl⟩
    unfold update_voice_settings
    rw [if_neg h]
  · intro h
    subst h
    rfl

/-- Witness for amended C5: supplying only `city` on `PUT /config` changes
`city` and keeps the unsupplied `restaurant_name`; an empty-bodied
`PUT /slides/settings` fails with the WriteError; a `PUT /voice` supplying
only `voice_type` succeeds, stores it, and keeps the prior `language`. -/
theorem put_merges_exactly_supplied_fields_witness :
    (update_config 1 cityOnlyUpdate (some ((AppConfig.default 0).dict))).2.city
      = some "MILANO" ∧
    (update_config 1 cityOnlyUpdate (some ((AppConfig.default 0).dict))).2.restaurant_name
      = some "Number ONE" ∧
    update_slide_settings ⟨none, none, none⟩ (some SlideSettings.default.dict) =
      Except.error "WriteError: $set is empty" ∧
    (∃ r d2, update_voice_settings ⟨none, some "male", none, none, none, none⟩
        (some VoiceSettings.default.dict) = Except.ok (r, d2) ∧
      d2.voice_type = some "male" ∧ d2.language = some "it-IT") := by
  have h := put_merges_exactly_supplied_fields 1 cityOnlyUpdate
    ((AppConfig.default 0).dict) ⟨none, none, none⟩ SlideSettings.default.dict
    ⟨none, none, none, none, none, none, none⟩ BluetoothRemote.default.dict
    ⟨none, some "male", none, none, none, none⟩ VoiceSettings.default.dict
    1 (CurrentNumber.default 0).dict
  refine ⟨h.1.2.1.2 "MILANO" rfl, h.1.1.1 rfl, h.2.1.2 rfl, ?_⟩
  obtain ⟨r, d2, heq, _, hvt, _, _, _, hlang, _⟩ := h.2.2.2.1.1 (by decide)
  exact ⟨r, d2, heq, hvt.2 "male" rfl, hlang.1 rfl⟩

/-! ### C6 – C7: the slide collection -/

/-- A sample stored slide. -/
def slideA : SlideImage := ⟨"a", "img", 2, 0⟩

/-- Another sample stored slide, with a smaller `order`. -/
def slideB : SlideImage := ⟨"b", "img", 1, 0⟩

/-- C6: `DELETE /slides/{id}` on an unknown id returns 404 and leaves the
collection unchanged; on an existing id it returns the success message and
removes exactly one document bearing that id — every document with another id
is kept, no document is added or reordered. -/
theorem delete_slide_not_found_or_removes_one (i : String) (l : List SlideImage) :
    ((∀ s ∈ l, s.id ≠ i) → delete_slide i l = (Except.error 404, l)) ∧
    ((∃ s ∈ l, s.id = i) →
      (delete_slide i l).1 = Except.ok "Slide deleted successfully" ∧
      (delete_slide i l).2.length + 1 = l.length ∧
      (delete_slide i l).2.countP (fun s => s.id == i) + 1 =
        l.countP (fun s => s.id == i) ∧
      (delete_slide i l).2.filter (fun s => !(s.id == i)) =
        l.filter (fun s => !(s.id == i)) ∧
      (delete_slide i l).2.Sublist l) := by
  constructor
  · intro hnone
    have hany : l.any (fun s => s.id == i) = false := by
      rw [List.any_eq_false]
      intro s hs
      simpa using hnone s hs
    have herase : l.eraseP (fun s => s.id == i) = l :=
      List.eraseP_of_forall_not (by intro s hs; simpa using hnone s hs)
    simp [delete_slide, hany, herase]
  · rintro ⟨a, ha, hai⟩
    have hpa : (fun s : SlideImage => s.id == i) a = true := by simpa using hai
    have hany : l.any (fun s => s.id == i) = true :=
      List.any_eq_true.mpr ⟨a, ha, hpa⟩
    obtain ⟨b, l₁, l₂, hl₁, hpb, hdecomp, herase⟩ :=
      @List.exists_of_eraseP SlideImage (fun s => s.id == i) l a ha hpa
    subst hdecomp
    refine ⟨?_, ?_, ?_, ?_, ?_⟩
    · simp [delete_slide, hany]
    · simp [delete_slide, hany, herase]
      omega
    · simp [delete_slide, hany, herase, List.countP_append, List.countP_cons, hpb]
      omega
    · simp [delete_slide, hany, herase, List.filter_append, List.filter_cons, hpb]
    · have hsub : (l₁ ++ l₂).Sublist (l₁ ++ b :: l₂) :=
        herase ▸ List.eraseP_sublist (l₁ ++ b :: l₂)
      simp [delete_slide, hany, herase, hsub]

/-- Witness for C6: both branches at one-element collections. -/
theorem delete_slide_not_found_or_removes_one_witness :
    delete_slide "x" [slideA] = (Except.error 404, [slideA]) ∧
    (delete_slide "a" [slideA]).1 = Except.ok "Slide deleted successfully" :=
  ⟨(delete_slide_not_found_or_removes_one "x" [slideA]).1 (by decide),
    ((delete_slide_not_found_or_removes_one "a" [slideA]).2
      ⟨slideA, by decide, rfl⟩).1⟩

/-- C7: `GET /slides` returns the stored slides in non-decreasing `order`, at
most 100 of them (exactly `min 100 n` of the `n` stored ones, so any slide
beyond the first 100 of the sorted collection is not returned), and every
returned slide is a stored one. -/
theorem get_slides_sorted_capped (l : List SlideImage) :
    List.Pairwise (fun a b : SlideImage => a.order ≤ b.order) (get_slides l) ∧
    (get_slides l).length = min 100 l.length ∧
    ∀ s ∈ get_slides l, s ∈ l := by
  have htrans : ∀ a b c : SlideImage, decide (a.order ≤ b.order) = true →
      decide (b.order ≤ c.order) = true → decide (a.order ≤ c.order) = true := by
    intro a b c hab hbc
    simp only [decide_eq_true_eq] at *
    omega
  have htotal : ∀ a b : SlideImage,
      (decide (a.order ≤ b.order) || decide (b.order ≤ a.order)) = true := by
    intro a b
    simp only [Bool.or_eq_true, decide_eq_true_eq]
    omega
  have hsorted := @List.sorted_mergeSort SlideImage
    (fun a b => decide (a.order ≤ b.order)) htrans htotal l
  have hperm := List.mergeSort_perm l (fun a b => decide (a.order ≤ b.order))
  refine ⟨?_, ?_, ?_⟩
  · exact List.Pairwise.sublist (List.take_sublist 100 _)
      (hsorted.imp (fun h => of_decide_eq_true h))
  · show (List.take 100 _).length = min 100 l.length
    rw [List.length_take, hperm.length_eq]
  · intro s hs
    exact hperm.mem_iff.mp (List.mem_of_mem_take hs)

/-- Witness for C7 on a two-slide collection stored out of order. -/
theorem get_slides_sorted_capped_witness :
    (get_slides [slideA, slideB]).length = min 100 [slideA, slideB].length ∧
    slideB ∈ [slideA, slideB] :=
  ⟨(get_slides_sorted_capped [slideA, slideB]).2.1,
    (get_slides_sorted_capped [slideA, slideB]).2.2 slideB
      (by simp [get_slides, List.mergeSort, slideA, slideB])⟩

/-! ### C8: news feed degradation -/

/-- C8: whenever fetching or parsing the configured feed fails, `GET /news`
still returns an HTTP success whose body is the empty news list together with
the error text; and for every configuration and fetch outcome whatsoever the
handler returns an HTTP success, never an error status. -/
theorem news_feed_degrades_to_empty (cfg : Option AppConfigDoc)
    (fetch : String → Except String (List FeedEntry)) (e : String)
    (h : fetch (rssUrlOf cfg) = Except.error e) :
    get_news_feed cfg fetch = Except.ok ⟨[], some e⟩ ∧
    ∀ (cfg2 : Option AppConfigDoc) (fetch2 : String → Except String (List FeedEntry)),
      ∃ r, get_news_feed cfg2 fetch2 = Except.ok r := by
  constructor
  · simp [get_news_feed, h]
  · intro cfg2 fetch2
    unfold get_news_feed
    cases fetch2 (rssUrlOf cfg2) <;> exact ⟨_, rfl⟩

/-- Witness for C8: an unreachable feed URL. -/
theorem news_feed_degrades_to_empty_witness :
    get_news_feed none (fun _ => Except.error "unreachable") =
      Except.ok ⟨[], some "unreachable"⟩ :=
  (news_feed_degrades_to_empty none (fun _ => Except.error "unreachable")
    "unreachable" rfl).1

/-! ### C9: failure paths of the mutating endpoints -/

/-- C9 counterexample: a `PUT /slides/reorder` body whose first entry lacks
the `id` key (or, id present, the `order` key) makes the handler raise a
KeyError — the request does not complete without error, and it is not the
documented NotFound case of `DELETE /slides/{id}`. -/
theorem reorder_slides_missing_key_raises :
    (reorder_slides [⟨none, none⟩] []).1 = Except.error "KeyError: id" ∧
    (reorder_slides [⟨some "a", none⟩] [slideA]).1 = Except.error "KeyError: order" ∧
    (reorder_slides [⟨some "a", none⟩] [slideA]).2 = [slideA] :=
  ⟨rfl, rfl, rfl⟩

/-- A reorder body in which every entry carries both keys runs to the success
message (unknown ids are silent no-ops). -/
theorem reorder_slides_ok_of_keys (items : List SlideOrderItem)
    (l : List SlideImage)
    (h : ∀ item ∈ items, item.id ≠ none ∧ item.order ≠ none) :
    (reorder_slides items l).1 = Except.ok "Slides reordered successfully" := by
  induction items generalizing l with
  | nil => rfl
  | cons item rest ih =>
      obtain ⟨hid, hord⟩ := h item (List.mem_cons_self item rest)
      obtain ⟨i, hi⟩ := Option.ne_none_iff_exists.mp hid
      obtain ⟨v, hv⟩ := Option.ne_none_iff_exists.mp hord
      rw [reorder_slides, ← hi, ← hv]
      exact ih (setOrderFirst i v l) (fun it hit => h it (List.mem_cons_of_mem _ hit))

/-- C9 amended: among the mutating PUT/POST/DELETE endpoints, the failure
paths on structurally well-formed requests are: the documented NotFound of
`DELETE /slides/{id}` on an unknown id, the KeyError of `PUT /slides/reorder`
on an entry lacking the `id` or `order` key, the validation error of
`POST /slides` on an explicit null `order`, and the store's WriteError on the
empty `$set` when `PUT /slides/settings`, `PUT /bluetooth` or `PUT /voice`
supplies no field at all.  Every other such request — a delete of an existing
id, a reorder whose entries all carry both keys, a create with `order`
absent-or-integer, and a singleton PUT supplying at least one field —
completes without error (`PUT /config`, `PUT /number` and the number POSTs
cannot fail at all, their `$set` never being empty). -/
theorem mutating_endpoints_failure_modes (i : String) (l l2 l3 : List SlideImage)
    (items : List SlideOrderItem) (newId img : String) (now : Time) (o : Int)
    (sd : SlideSettingsDoc) (bd : BluetoothRemoteDoc) (vd : VoiceSettingsDoc)
    (su : SlideSettingsUpdate) (bu : BluetoothRemoteUpdate) (vu : VoiceSettingsUpdate) :
    ((∀ s ∈ l, s.id ≠ i) → (delete_slide i l).1 = Except.error 404) ∧
    ((∃ s ∈ l, s.id = i) → ∃ m, (delete_slide i l).1 = Except.ok m) ∧
    ((∀ item ∈ items, item.id ≠ none ∧ item.order ≠ none) →
      ∃ m, (reorder_slides items l2).1 = Except.ok m) ∧
    (∃ r, create_slide newId now img (some o) l3 = Except.ok r) ∧
    (update_slide_settings ⟨none, none, none⟩ (some sd) =
      Except.error "WriteError: $set is empty") ∧
    (update_bluetooth_settings ⟨none, none, none, none, none, none, none⟩
      (some bd) = Except.error "WriteError: $set is empty") ∧
    (update_voice_settings ⟨none, none, none, none, none, none⟩ (some vd) =
      Except.error "WriteError: $set is empty") ∧
    (su ≠ ⟨none, none, none⟩ →
      ∃ p, update_slide_settings su (some sd) = Except.ok p) ∧
    (bu ≠ ⟨none, none, none, none, none, none, none⟩ →
      ∃ p, update_bluetooth_settings bu (some bd) = Except.ok p) ∧
    (vu ≠ ⟨none, none, none, none, none, none⟩ →
      ∃ p, update_voice_settings vu (some vd) = Except.ok p) := by
  refine ⟨?_, ?_, ?_, ⟨_, rfl⟩, rfl, rfl, rfl, ?_, ?_, ?_⟩
  · intro hnone
    have hany : l.any (fun s => s.id == i) = false := by
      rw [List.any_eq_false]
      intro s hs
      simpa using hnone s hs
    simp [delete_slide, hany]
  · rintro ⟨a, ha, hai⟩
    have hany : l.any (fun s => s.id == i) = true :=
      List.any_eq_true.mpr ⟨a, ha, by simpa using hai⟩
    exact ⟨"Slide deleted successfully", by simp [delete_slide, hany]⟩
  · intro hkeys
    exact ⟨_, reorder_slides_ok_of_keys items l2 hkeys⟩
  · intro h
    exact ⟨_, by unfold update_slide_settings; rw [if_neg h]⟩
  · intro h
    exact ⟨_, by unfold update_bluetooth_settings; rw [if_neg h]⟩
  · intro h
    exact ⟨_, by unfold update_voice_settings; rw [if_neg h]⟩

/-- Witness for amended C9: concrete requests for the 404, reorder-ok,
create-ok, empty-PUT-error and non-empty-PUT-ok branches. -/
theorem mutating_endpoints_failure_modes_witness :
    (delete_slide "x" [slideA]).1 = Except.error 404 ∧
    (∃ m, (reorder_slides [⟨some "a", some 7⟩] [slideA]).1 = Except.ok m) ∧
    (∃ r, create_slide "b" 0 "img" (some 3) [] = Except.ok r) ∧
    update_voice_settings ⟨none, none, none, none, none, none⟩
      (some VoiceSettings.default.dict) = Except.error "WriteError: $set is empty" ∧
    (∃ p, update_slide_settings ⟨some 5, none, none⟩
      (some SlideSettings.default.dict) = Except.ok p) := by
  have h := mutating_endpoints_failure_modes "x" [slideA] [slideA] []
    [⟨some "a", some 7⟩] "b" "img" 0 3 SlideSettings.default.dict
    BluetoothRemote.default.dict VoiceSettings.default.dict
    ⟨some 5, none, none⟩ ⟨none, none, none, none, none, none, some true⟩
    ⟨some false, none, none, none, none, none⟩
  exact ⟨h.1 (by decide), h.2.2.1 (by decide), h.2.2.2.1,
    h.2.2.2.2.2.2.1, h.2.2.2.2.2.2.2.1 (by decide)⟩

/-! ### C10: upsert-created partial documents still read back as defaults -/

/-- C10: for the three singletons without timestamps, a PUT supplying some
non-null fields while no document exists succeeds and upserts a document
holding exactly the supplied fields plus the fixed id, yet the PUT response
fills every absent field with its documented default, and a subsequent GET
returns that same response without touching the stored document. -/
theorem put_on_empty_store_partial_doc
    (su : SlideSettingsUpdate) (bu : BluetoothRemoteUpdate) (vu : VoiceSettingsUpdate)
    (hs : su ≠ ⟨none, none, none⟩)
    (hb : bu ≠ ⟨none, none, none, none, none, none, none⟩)
    (hv : vu ≠ ⟨none, none, none, none, none, none⟩) :
    update_slide_settings su none = Except.ok
      (⟨"slide_settings", su.interval_seconds.getD 10,
          su.transition_effect.getD "fade", su.auto_play.getD true⟩,
        ⟨"slide_settings", su.interval_seconds, su.transition_effect, su.auto_play⟩) ∧
    get_slide_settings (some ⟨"slide_settings", su.interval_seconds,
        su.transition_effect, su.auto_play⟩) =
      (⟨"slide_settings", su.interval_seconds.getD 10,
          su.transition_effect.getD "fade", su.auto_play.getD true⟩,
        ⟨"slide_settings", su.interval_seconds, su.transition_effect, su.auto_play⟩) ∧
    update_bluetooth_settings bu none = Except.ok
      (⟨"bluetooth_remote", (bu.device_name.map some).getD none,
          (bu.device_id.map some).getD none, bu.button_a_action.getD "increment",
          bu.button_b_action.getD "decrement", bu.button_c_action.getD "reset",
          bu.button_d_action.getD "none", bu.is_paired.getD false⟩,
        ⟨"bluetooth_remote", bu.device_name.map some, bu.device_id.map some,
          bu.button_a_action, bu.button_b_action, bu.button_c_action,
          bu.button_d_action, bu.is_paired⟩) ∧
    get_bluetooth_settings (some ⟨"bluetooth_remote", bu.device_name.map some,
        bu.device_id.map some, bu.button_a_action, bu.button_b_action,
        bu.button_c_action, bu.button_d_action, bu.is_paired⟩) =
      (⟨"bluetooth_remote", (bu.device_name.map some).getD none,
          (bu.device_id.map some).getD none, bu.button_a_action.getD "increment",
          bu.button_b_action.getD "decrement", bu.button_c_action.getD "reset",
          bu.button_d_action.getD "none", bu.is_paired.getD false⟩,
        ⟨"bluetooth_remote", bu.device_name.map some, bu.device_id.map some,
          bu.button_a_action, bu.button_b_action, bu.button_c_action,
          bu.button_d_action, bu.is_paired⟩) ∧
    update_voice_settings vu none = Except.ok
      (⟨"voice_settings", vu.enabled.getD true, vu.voice_type.getD "female",
          vu.pitch.getD 1, vu.rate.getD 1,
          vu.phrase_template.getD "Numero {number}", vu.language.getD "it-IT"⟩,
        ⟨"voice_settings", vu.enabled, vu.voice_type, vu.pitch, vu.rate,
          vu.phrase_template, vu.language⟩) ∧
    get_voice_settings (some ⟨"voice_settings", vu.enabled, vu.voice_type,
        vu.pitch, vu.rate, vu.phrase_template, vu.language⟩) =
      (⟨"voice_settings", vu.enabled.getD true, vu.voice_type.getD "female",
          vu.pitch.getD 1, vu.rate.getD 1,
          vu.phrase_template.getD "Numero {number}", vu.language.getD "it-IT"⟩,
        ⟨"voice_settings", vu.enabled, vu.voice_type, vu.pitch, vu.rate,
          vu.phrase_template, vu.language⟩) := by
  refine ⟨?_, rfl, ?_, rfl, ?_, rfl⟩
  · unfold update_slide_settings
    rw [if_neg hs]
    rfl
  · unfold update_bluetooth_settings
    rw [if_neg hb]
    rfl
  · unfold update_voice_settings
    rw [if_neg hv]
    rfl

/-- Witness for C10: each PUT supplies a single non-null field. -/
theorem put_on_empty_store_partial_doc_witness :
    update_voice_settings ⟨some false, none, none, none, none, none⟩ none =
      Except.ok
        (⟨"voice_settings", false, "female", 1, 1, "Numero {number}", "it-IT"⟩,
          ⟨"voice_settings", some false, none, none, none, none, none⟩) := by
  have h := put_on_empty_store_partial_doc ⟨some 5, none, none⟩
    ⟨none, none, none, none, none, none, some true⟩
    ⟨some false, none, none, none, none, none⟩
    (by decide) (by decide) (by decide)
  exact h.2.2.2.2.1

end Server
